import Mathlib

/-!
Verification of the heightfield / rigid-body layer of
`gameplay/src/PhysicsRigidBody.cpp` via a shallow embedding in Lean 4.

Machine floats are embedded as rationals (`ℚ`), C `unsigned int` casts of
non-negative floats as `Int.toNat ∘ Int.floor`, raw buffers as `List`, and
fallible paths as `Except`/`Option`.  External collaborators (Bullet, the
scene graph, the `Properties` parser, the image decoder) appear only through
the values this translation unit reads from them.
-/

namespace GamePlay

/-- A 3-component vector over `ℚ`, standing in for the engine `Vector3`. -/
structure Vector3 where
  x : ℚ
  y : ℚ
  z : ℚ
  deriving DecidableEq, Repr

/-- `Vector3::lengthSquared()`. -/
def Vector3.lengthSquared (v : Vector3) : ℚ :=
  v.x * v.x + v.y * v.y + v.z * v.z

/-- Modelled from the spec: the engine epsilon constant `MATH_EPSILON`
(defined in a header outside this translation unit); the spec only calls it
"a squared-magnitude epsilon threshold", and the engine value is `0.000001f`. -/
def MATH_EPSILON : ℚ := 1 / 1000000

/-- C cast of a non-negative float to `unsigned int`: truncation toward zero,
which on non-negative values is the floor. -/
def toUInt (q : ℚ) : ℕ := (⌊q⌋).toNat

/-- `calculateHeight(float* data, unsigned width, unsigned height, float x, float y)`
(PhysicsRigidBody.cpp, file-static helper): bilinear interpolation of the
row-major grid `data`, with degenerate branches at the upper edges.
Out-of-range reads of `data` are embedded as `List.getD _ 0`. -/
def calculateHeight (data : List ℚ) (width height : ℕ) (x y : ℚ) : ℚ :=
  let x1 : ℕ := toUInt x
  let y1 : ℕ := toUInt y
  let x2 : ℕ := x1 + 1
  let y2 : ℕ := y1 + 1
  let xFactor : ℚ := x - ⌊x⌋
  let yFactor : ℚ := y - ⌊y⌋
  let xFactorI : ℚ := 1 - xFactor
  let yFactorI : ℚ := 1 - yFactor
  if x2 ≥ width ∧ y2 ≥ height then
    data.getD (x1 + y1 * width) 0
  else if x2 ≥ width then
    data.getD (x1 + y1 * width) 0 * yFactorI + data.getD (x1 + y2 * width) 0 * yFactor
  else if y2 ≥ height then
    data.getD (x1 + y1 * width) 0 * xFactorI + data.getD (x2 + y1 * width) 0 * xFactor
  else
    data.getD (x1 + y1 * width) 0 * xFactorI * yFactorI +
      data.getD (x1 + y2 * width) 0 * xFactorI * yFactor +
      data.getD (x2 + y2 * width) 0 * xFactor * yFactor +
      data.getD (x2 + y1 * width) 0 * xFactor * yFactorI

/-- The buffer indices `calculateHeight` reads, branch by branch, in source
order.  Extracted from the same branch structure as `calculateHeight` so the
memory-safety of a call can be stated. -/
def calculateHeightIndices (width height : ℕ) (x y : ℚ) : List ℕ :=
  let x1 : ℕ := toUInt x
  let y1 : ℕ := toUInt y
  let x2 : ℕ := x1 + 1
  let y2 : ℕ := y1 + 1
  if x2 ≥ width ∧ y2 ≥ height then
    [x1 + y1 * width]
  else if x2 ≥ width then
    [x1 + y1 * width, x1 + y2 * width]
  else if y2 ≥ height then
    [x1 + y1 * width, x2 + y1 * width]
  else
    [x1 + y1 * width, x1 + y2 * width, x2 + y2 * width, x2 + y1 * width]

end GamePlay

namespace GamePlay

/-- Claim C3: `calculateHeight` returns the single corner sample when both
`x2` and `y2` overflow the grid, interpolates along y when only `x2`
overflows, along x when only `y2` overflows, and otherwise blends the four
corners with weights `(1-fx)(1-fy)`, `(1-fx)fy`, `fx*fy`, `fx(1-fy)`; and the
2x2 grid `[0,0,10,10]` of width 2 sampled at `(1/2, 1/2)` yields 5. -/
theorem calculateHeight_spec (data : List ℚ) (w h : ℕ) (x y : ℚ)
    (hx : 0 ≤ x) (hy : 0 ≤ y) :
    (∀ x1 y1 fx fy, x1 = toUInt x → y1 = toUInt y → fx = x - ⌊x⌋ → fy = y - ⌊y⌋ →
      (x1 + 1 ≥ w → y1 + 1 ≥ h →
        calculateHeight data w h x y = data.getD (x1 + y1 * w) 0) ∧
      (x1 + 1 ≥ w → y1 + 1 < h →
        calculateHeight data w h x y =
          data.getD (x1 + y1 * w) 0 * (1 - fy) + data.getD (x1 + (y1 + 1) * w) 0 * fy) ∧
      (x1 + 1 < w → y1 + 1 ≥ h →
        calculateHeight data w h x y =
          data.getD (x1 + y1 * w) 0 * (1 - fx) + data.getD (x1 + 1 + y1 * w) 0 * fx) ∧
      (x1 + 1 < w → y1 + 1 < h →
        calculateHeight data w h x y =
          data.getD (x1 + y1 * w) 0 * (1 - fx) * (1 - fy) +
            data.getD (x1 + (y1 + 1) * w) 0 * (1 - fx) * fy +
            data.getD (x1 + 1 + (y1 + 1) * w) 0 * fx * fy +
            data.getD (x1 + 1 + y1 * w) 0 * fx * (1 - fy))) ∧
    calculateHeight [0, 0, 10, 10] 2 2 (1/2) (1/2) = 5 := by
  constructor
  · rintro x1 y1 fx fy rfl rfl rfl rfl
    refine ⟨?_, ?_, ?_, ?_⟩ <;> intro h1 h2 <;>
      simp only [calculateHeight] <;>
      split_ifs with hc hc2 hc3 <;>
      first
        | (exfalso; omega)
        | ring
  · simp only [calculateHeight, toUInt]
    norm_num

/-- Witness for C3 at the concrete example from the spec. -/
theorem calculateHeight_spec_witness :
    calculateHeight [0, 0, 10, 10] 2 2 (1/2) (1/2) = 5 :=
  (calculateHeight_spec [0, 0, 10, 10] 2 2 (1/2) (1/2) (by norm_num) (by norm_num)).2

/-- Claim C8: at integer coordinates inside the grid, `calculateHeight`
collapses to the direct lookup `data[x + y*width]`, in every branch. -/
theorem calculateHeight_integer_lookup (data : List ℚ) (w h x y : ℕ)
    (hx : x < w) (hy : y < h) :
    calculateHeight data w h (x : ℚ) (y : ℚ) = data.getD (x + y * w) 0 := by
  have hfx : (⌊(x : ℚ)⌋ : ℤ) = (x : ℤ) := Int.floor_natCast x
  have hfy : (⌊(y : ℚ)⌋ : ℤ) = (y : ℤ) := Int.floor_natCast y
  simp only [calculateHeight, toUInt, hfx, hfy, Int.toNat_natCast]
  have hx0 : (x : ℚ) - ((x : ℤ) : ℚ) = 0 := by push_cast; ring
  have hy0 : (y : ℚ) - ((y : ℤ) : ℚ) = 0 := by push_cast; ring
  rw [hx0, hy0]
  split_ifs <;> ring

/-- Witness for C8 on a concrete 2x3 grid. -/
theorem calculateHeight_integer_lookup_witness :
    calculateHeight [1, 2, 3, 4, 5, 6] 2 3 (1 : ℕ) (2 : ℕ) = 6 := by
  have := calculateHeight_integer_lookup [1, 2, 3, 4, 5, 6] 2 3 1 2
    (by norm_num) (by norm_num)
  simpa using this

/-- The node bounding box read at the start of the heightfield constructor. -/
structure BoundingBox where
  min : Vector3
  max : Vector3
  deriving DecidableEq, Repr

/-- Lines 74-109 of the heightfield constructor: `width = box.max.x - box.min.x`,
`length = box.max.z - box.min.z`, `unsigned int sizeWidth = width;`
`unsigned int sizeHeight = length;` (float-to-unsigned truncation),
`_width = sizeWidth + 1; _height = sizeHeight + 1`.  Returns the column and
row counts `(_width, _height)` of the allocated grid. -/
def heightfieldDims (box : BoundingBox) : ℕ × ℕ :=
  let width : ℚ := box.max.x - box.min.x
  let length : ℚ := box.max.z - box.min.z
  let sizeWidth : ℕ := toUInt width
  let sizeHeight : ℕ := toUInt length
  (sizeWidth + 1, sizeHeight + 1)

/-- Claim C1 counterexample: for the non-integer node width 5/2 (and length 3)
the allocated grid has `floor(5/2)+1 = 3` columns, not the claimed
`ceil(5/2)+1 = 4`. -/
theorem heightfieldDims_ceil_counterexample :
    (heightfieldDims ⟨⟨0, 0, 0⟩, ⟨5/2, 1, 3⟩⟩).1 = 3 ∧
      (⌈(5/2 : ℚ)⌉.toNat + 1 : ℕ) = 4 := by
  constructor
  · simp only [heightfieldDims, toUInt]
    norm_num
    rfl
  · have h3 : (⌈(5/2 : ℚ)⌉ : ℤ) = 3 := by
      rw [Int.ceil_eq_iff]
      norm_num
    rw [h3]
    decide

/-- Claim C1 (amended): the grid allocated by the heightfield constructor has
`floor(node_width)+1` columns and `floor(node_length)+1` rows (the C cast
truncates); this agrees with the claimed `ceil+1` exactly when the
dimension is an integer. -/
theorem heightfieldDims_floor (box : BoundingBox)
    (hw : 0 ≤ box.max.x - box.min.x) (hl : 0 ≤ box.max.z - box.min.z) :
    (heightfieldDims box).1 = (⌊box.max.x - box.min.x⌋).toNat + 1 ∧
      (heightfieldDims box).2 = (⌊box.max.z - box.min.z⌋).toNat + 1 ∧
      ((∃ n : ℕ, box.max.x - box.min.x = n) →
        (heightfieldDims box).1 = (⌈box.max.x - box.min.x⌉).toNat + 1) ∧
      ((∃ n : ℕ, box.max.z - box.min.z = n) →
        (heightfieldDims box).2 = (⌈box.max.z - box.min.z⌉).toNat + 1) := by
  refine ⟨rfl, rfl, ?_, ?_⟩
  · rintro ⟨n, hn⟩
    simp only [heightfieldDims, toUInt, hn]
    norm_num
  · rintro ⟨n, hn⟩
    simp only [heightfieldDims, toUInt, hn]
    norm_num

/-- Witness for the amended C1 at a concrete box of width 5/2 and length 3. -/
theorem heightfieldDims_floor_witness :
    (heightfieldDims ⟨⟨1, 0, 2⟩, ⟨7/2, 1, 5⟩⟩).1 = (⌊(7/2 : ℚ) - 1⌋).toNat + 1 :=
  (heightfieldDims_floor ⟨⟨1, 0, 2⟩, ⟨7/2, 1, 5⟩⟩ (by norm_num) (by norm_num)).1

/-- Image pixel formats this constructor accepts (`Image::Format`). -/
inductive ImageFormat where
  | rgb
  | rgba
  | other
  deriving DecidableEq, Repr

/-- The image data the constructor reads: dimensions, format and the raw byte
buffer (`image->getData()`), bytes as naturals. -/
structure ImageModel where
  width : ℕ
  height : ℕ
  format : ImageFormat
  data : List ℕ
  deriving DecidableEq, Repr

/-- Lines 82-91: bytes per pixel for the supported formats (0 otherwise,
as the `pixelSize` local stays 0 when the switch matches no case). -/
def pixelSize : ImageFormat → ℕ
  | ImageFormat.rgb => 3
  | ImageFormat.rgba => 4
  | ImageFormat.other => 0

/-- Lines 99-101, the value stored at `data[x + y * image->getWidth()]`: the
three colour bytes are fetched at base offset
`(x + y * image->getHeight()) * pixelSize` — note the `getHeight()` stride —
then mapped through `sum/768 * (maxHeight-minHeight) + minHeight`.
Out-of-range byte reads are embedded as `List.getD _ 0`. -/
def pixelHeight (img : ImageModel) (minHeight maxHeight : ℚ) (x y : ℕ) : ℚ :=
  let ps := pixelSize img.format
  let base := (x + y * img.height) * ps
  (((img.data.getD base 0 : ℚ) + (img.data.getD (base + 1) 0 : ℚ) +
      (img.data.getD (base + 2) 0 : ℚ)) / 768) * (maxHeight - minHeight) + minHeight

/-- The spec reading of the same computation (claim C2): the three colour
channels of pixel `(x, y)` itself, i.e. base offset
`(x + y * image->getWidth()) * pixelSize`, mapped through the same formula. -/
def specPixelHeight (img : ImageModel) (minHeight maxHeight : ℚ) (x y : ℕ) : ℚ :=
  let ps := pixelSize img.format
  let base := (x + y * img.width) * ps
  (((img.data.getD base 0 : ℚ) + (img.data.getD (base + 1) 0 : ℚ) +
      (img.data.getD (base + 2) 0 : ℚ)) / 768) * (maxHeight - minHeight) + minHeight

/-- Claim C2 (code bug): on a non-square RGB image (2 wide, 3 tall, bytes
0..17) with `minHeight = 0`, `maxHeight = 768`, the constructor computes the
height of pixel (1,1) from bytes 12,13,14 (offset `(x + y*imageHeight)*3`),
giving 39, whereas the channels of pixel (1,1) are bytes 9,10,11 (offset
`(x + y*imageWidth)*3`), giving the claimed value 30. -/
theorem pixelHeight_stride_bug :
    pixelHeight
        ⟨2, 3, ImageFormat.rgb,
          [0, 1, 2, 3, 4, 5, 6, 7, 8, 9, 10, 11, 12, 13, 14, 15, 16, 17]⟩
        0 768 1 1 = 39 ∧
      specPixelHeight
        ⟨2, 3, ImageFormat.rgb,
          [0, 1, 2, 3, 4, 5, 6, 7, 8, 9, 10, 11, 12, 13, 14, 15, 16, 17]⟩
        0 768 1 1 = 30 := by
  constructor
  · simp only [pixelHeight, pixelSize]
    norm_num
  · simp only [specPixelHeight, pixelSize]
    norm_num

/-- Claim C9 (code bug): the rescaled coordinate pair (2, 2) passes the
`getHeight` bounds validation for a 2x2 heightfield (`0 ≤ 2 ≤ width`), yet
`calculateHeight` then reads buffer index `x1 + y1*width = 6`, outside the
`width*height = 4` element buffer. -/
theorem calculateHeight_index_out_of_bounds :
    (¬ ((2 : ℚ) < 0 ∨ (2 : ℚ) > (2 : ℕ) ∨ (2 : ℚ) < 0 ∨ (2 : ℚ) > (2 : ℕ))) ∧
      calculateHeightIndices 2 2 2 2 = [6] ∧ ¬ (6 < 2 * 2) := by
  refine ⟨by norm_num, ?_, by norm_num⟩
  simp only [calculateHeightIndices, toUInt]
  norm_num
  rfl

/-- Bullet broadphase shape classes queried via `getShapeType()`, restricted
to the shapes this translation unit creates. -/
inductive BtShapeType where
  | boxShape
  | sphereShape
  | capsuleShape
  | triangleMeshShape
  | terrainShape
  deriving DecidableEq, Repr

/-- The fields of `PhysicsRigidBody` used by the height query and the
constraint-support query: the shape class, the heightfield grid
(`_width`, `_height`, `_heightfieldData`), the inverse-transform cache
(`_inverse`, `_inverseIsDirty`) and the node world transform.  The node's
world matrix inverse (external `Matrix` class) is embedded as the point map
`nodeWorldInverse` it defines. -/
structure PhysicsRigidBodyState where
  shapeType : BtShapeType
  width : ℕ
  height : ℕ
  heightfieldData : List ℚ
  nodeWorldInverse : Vector3 → Vector3
  inverse : Option (Vector3 → Vector3)
  inverseIsDirty : Bool

/-- Lines 492-499 of `getHeight`: when the cache is dirty, recompute the
inverse of the node world matrix into `_inverse` and clear the flag. -/
def refreshInverse (b : PhysicsRigidBodyState) : PhysicsRigidBodyState :=
  if b.inverseIsDirty then
    { b with inverse := some b.nodeWorldInverse, inverseIsDirty := false }
  else
    b

/-- Lines 501-503 of `getHeight`: transform the world point `(x, 0, y)` by the
cached inverse and rescale into grid coordinates centred on the grid midpoint.
The cache is always populated when this runs (the flag starts dirty), so a
missing cache is read as the identity map. -/
def gridCoords (b : PhysicsRigidBodyState) (x y : ℚ) : ℚ × ℚ :=
  let inv := b.inverse.getD id
  let v := inv ⟨x, 0, y⟩
  ((v.x + (1/2 : ℚ) * ((b.width : ℚ) - 1)) * (b.width : ℚ) / ((b.width : ℚ) - 1),
   (v.z + (1/2 : ℚ) * ((b.height : ℚ) - 1)) * (b.height : ℚ) / ((b.height : ℚ) - 1))

/-- `PhysicsRigidBody::getHeight(float x, float y)` (lines 482-513): reject
non-terrain shapes with 0, refresh the inverse cache, map into grid
coordinates, validate against `[0, width] x [0, height]`, and sample.  The
returned pair carries the (possibly cache-updated) object state. -/
def getHeight (b : PhysicsRigidBodyState) (x y : ℚ) : ℚ × PhysicsRigidBodyState :=
  if b.shapeType ≠ BtShapeType.terrainShape then
    (0, b)
  else
    let b := refreshInverse b
    let p := gridCoords b x y
    if p.1 < 0 ∨ p.1 > (b.width : ℚ) ∨ p.2 < 0 ∨ p.2 > (b.height : ℚ) then
      (0, b)
    else
      (calculateHeight b.heightfieldData b.width b.height p.1 p.2, b)

/-- `PhysicsRigidBody::supportsConstraints()` (lines 555-558). -/
def supportsConstraints (b : PhysicsRigidBodyState) : Bool :=
  b.shapeType ≠ BtShapeType.triangleMeshShape ∧ b.shapeType ≠ BtShapeType.terrainShape

/-- Claim C5: on a body whose shape is not a heightfield (terrain) shape,
`getHeight` returns 0 and leaves the whole state — inverse cache and dirty
flag included — untouched. -/
theorem getHeight_non_terrain (b : PhysicsRigidBodyState) (x y : ℚ)
    (h : b.shapeType ≠ BtShapeType.terrainShape) :
    getHeight b x y = (0, b) := by
  simp only [getHeight]
  rw [if_pos h]

/-- Witness for C5 on a concrete box-shaped body. -/
theorem getHeight_non_terrain_witness :
    getHeight ⟨BtShapeType.boxShape, 2, 2, [0, 0, 10, 10], id, none, true⟩ 3 7 =
      (0, ⟨BtShapeType.boxShape, 2, 2, [0, 0, 10, 10], id, none, true⟩) :=
  getHeight_non_terrain ⟨BtShapeType.boxShape, 2, 2, [0, 0, 10, 10], id, none, true⟩ 3 7
    (by simp)

/-- Claim C6: on a heightfield body, when the inverse-transformed and
grid-rescaled coordinates fall outside `[0, width] x [0, height]`, `getHeight`
returns 0 without sampling the heightfield buffer (the returned state shows
only the cache refresh). -/
theorem getHeight_out_of_range (b : PhysicsRigidBodyState) (x y : ℚ)
    (hshape : b.shapeType = BtShapeType.terrainShape)
    (hout : (gridCoords (refreshInverse b) x y).1 < 0 ∨
      (gridCoords (refreshInverse b) x y).1 > ((refreshInverse b).width : ℚ) ∨
      (gridCoords (refreshInverse b) x y).2 < 0 ∨
      (gridCoords (refreshInverse b) x y).2 > ((refreshInverse b).height : ℚ)) :
    getHeight b x y = (0, refreshInverse b) := by
  simp only [getHeight, hshape]
  simp only [ne_eq, not_true_eq_false, if_false, hout, if_true]

/-- Witness for C6: identity transform, 2x2 grid, query (100, 0) rescales to
x-coordinate 201 > 2 and yields 0. -/
theorem getHeight_out_of_range_witness :
    (getHeight ⟨BtShapeType.terrainShape, 2, 2, [0, 0, 10, 10], id, none, true⟩ 100 0).1
      = 0 := by
  rw [getHeight_out_of_range
    ⟨BtShapeType.terrainShape, 2, 2, [0, 0, 10, 10], id, none, true⟩ 100 0 rfl
    (by
      simp only [refreshInverse, gridCoords]
      norm_num)]

/-- Claim C10: `supportsConstraints` holds exactly on the bodies whose shape
is neither a triangle mesh nor a heightfield (terrain); box, sphere and
capsule shapes support constraints, mesh and heightfield shapes do not. -/
theorem supportsConstraints_iff (b : PhysicsRigidBodyState) :
    (supportsConstraints b = true ↔
      (b.shapeType ≠ BtShapeType.triangleMeshShape ∧
        b.shapeType ≠ BtShapeType.terrainShape)) ∧
    (supportsConstraints b = true ↔
      (b.shapeType = BtShapeType.boxShape ∨ b.shapeType = BtShapeType.sphereShape ∨
        b.shapeType = BtShapeType.capsuleShape)) := by
  constructor
  · simp [supportsConstraints]
  · simp only [supportsConstraints]
    cases b.shapeType <;> simp

/-- Calls this translation unit makes on the wrapped physics-library body,
in call order.  A force or impulse carries the optional off-centre relative
application point it was given. -/
inductive BulletOp where
  | activate
  | force (f : Vector3) (relativePosition : Option Vector3)
  | impulse (i : Vector3) (relativePosition : Option Vector3)
  | torque (t : Vector3)
  | torqueImpulse (t : Vector3)
  deriving DecidableEq, Repr

/-- Modelled from the spec: the wrapped physics-library rigid body (the
`_body` handle), reduced to what the claims observe — the awake flag, the
linear and angular velocity it integrates, and the log of calls made on it.
Impulses change velocity immediately (unit mass and inertia); forces and
torques accumulate for the solver and leave velocity untouched here. -/
structure BulletBody where
  active : Bool
  linearVelocity : Vector3
  angularVelocity : Vector3
  log : List BulletOp
  deriving Repr

/-- `btRigidBody::activate()`: wake the body. -/
def btActivate (b : BulletBody) : BulletBody :=
  { b with active := true, log := b.log ++ [BulletOp.activate] }

/-- `applyForce` / `applyCentralForce` on the library body. -/
def btApplyForce (b : BulletBody) (f : Vector3) (rel : Option Vector3) : BulletBody :=
  { b with log := b.log ++ [BulletOp.force f rel] }

/-- `applyImpulse` / `applyCentralImpulse` on the library body: the linear
velocity changes immediately. -/
def btApplyImpulse (b : BulletBody) (i : Vector3) (rel : Option Vector3) : BulletBody :=
  { b with
      linearVelocity := ⟨b.linearVelocity.x + i.x, b.linearVelocity.y + i.y,
        b.linearVelocity.z + i.z⟩,
      log := b.log ++ [BulletOp.impulse i rel] }

/-- `applyTorque` on the library body. -/
def btApplyTorque (b : BulletBody) (t : Vector3) : BulletBody :=
  { b with log := b.log ++ [BulletOp.torque t] }

/-- `applyTorqueImpulse` on the library body: the angular velocity changes
immediately. -/
def btApplyTorqueImpulse (b : BulletBody) (t : Vector3) : BulletBody :=
  { b with
      angularVelocity := ⟨b.angularVelocity.x + t.x, b.angularVelocity.y + t.y,
        b.angularVelocity.z + t.z⟩,
      log := b.log ++ [BulletOp.torqueImpulse t] }

/-- `PhysicsRigidBody::applyForce` (lines 232-244): below the squared-length
epsilon nothing happens; otherwise activate, then apply at the relative
position when one is supplied, centrally otherwise. -/
def applyForce (b : BulletBody) (force : Vector3) (rel : Option Vector3) : BulletBody :=
  if force.lengthSquared > MATH_EPSILON then
    let b := btActivate b
    match rel with
    | some r => btApplyForce b force (some r)
    | none => btApplyForce b force none
  else
    b

/-- `PhysicsRigidBody::applyImpulse` (lines 246-261). -/
def applyImpulse (b : BulletBody) (impulse : Vector3) (rel : Option Vector3) : BulletBody :=
  if impulse.lengthSquared > MATH_EPSILON then
    let b := btActivate b
    match rel with
    | some r => btApplyImpulse b impulse (some r)
    | none => btApplyImpulse b impulse none
  else
    b

/-- `PhysicsRigidBody::applyTorque` (lines 263-272). -/
def applyTorque (b : BulletBody) (torque : Vector3) : BulletBody :=
  if torque.lengthSquared > MATH_EPSILON then
    btApplyTorque (btActivate b) torque
  else
    b

/-- `PhysicsRigidBody::applyTorqueImpulse` (lines 274-283). -/
def applyTorqueImpulse (b : BulletBody) (torque : Vector3) : BulletBody :=
  if torque.lengthSquared > MATH_EPSILON then
    btApplyTorqueImpulse (btActivate b) torque
  else
    b

/-- Claim C7: a vector with squared magnitude at or below `MATH_EPSILON`
makes all four application routines complete no-ops (no wake, no call on the
library body, velocity unchanged); above the threshold the body is activated
first and the force, impulse, torque or torque impulse is then applied, at
the supplied relative position when there is one. -/
theorem applyForce_epsilon_gate (b : BulletBody) (v : Vector3) (rel : Option Vector3) :
    (v.lengthSquared ≤ MATH_EPSILON →
      applyForce b v rel = b ∧ applyImpulse b v rel = b ∧
        applyTorque b v = b ∧ applyTorqueImpulse b v = b) ∧
    (v.lengthSquared > MATH_EPSILON →
      ((applyForce b v rel).active = true ∧
        (applyForce b v rel).log = b.log ++ [BulletOp.activate, BulletOp.force v rel]) ∧
      ((applyImpulse b v rel).active = true ∧
        (applyImpulse b v rel).log = b.log ++ [BulletOp.activate, BulletOp.impulse v rel]) ∧
      ((applyTorque b v).active = true ∧
        (applyTorque b v).log = b.log ++ [BulletOp.activate, BulletOp.torque v]) ∧
      ((applyTorqueImpulse b v).active = true ∧
        (applyTorqueImpulse b v).log =
          b.log ++ [BulletOp.activate, BulletOp.torqueImpulse v])) := by
  constructor
  · intro hsmall
    have hno : ¬ (v.lengthSquared > MATH_EPSILON) := not_lt.mpr hsmall
    refine ⟨?_, ?_, ?_, ?_⟩ <;>
      simp only [applyForce, applyImpulse, applyTorque, applyTorqueImpulse, if_neg hno]
  · intro hbig
    refine ⟨⟨?_, ?_⟩, ⟨?_, ?_⟩, ⟨?_, ?_⟩, ⟨?_, ?_⟩⟩ <;>
      simp only [applyForce, applyImpulse, applyTorque, applyTorqueImpulse, if_pos hbig] <;>
      cases rel <;>
      simp [btActivate, btApplyForce, btApplyImpulse, btApplyTorque, btApplyTorqueImpulse]

/-- Witness for C7: a negligible force `(1e-10, 0, 0)` leaves a concrete
sleeping body untouched, while the unit force `(1, 0, 0)` wakes it. -/
theorem applyForce_epsilon_gate_witness :
    applyForce ⟨false, ⟨0, 0, 0⟩, ⟨0, 0, 0⟩, []⟩ ⟨1/10000000000, 0, 0⟩ none =
        ⟨false, ⟨0, 0, 0⟩, ⟨0, 0, 0⟩, []⟩ ∧
      (applyForce ⟨false, ⟨0, 0, 0⟩, ⟨0, 0, 0⟩, []⟩ ⟨1, 0, 0⟩ none).active = true := by
  constructor
  · exact ((applyForce_epsilon_gate ⟨false, ⟨0, 0, 0⟩, ⟨0, 0, 0⟩, []⟩
      ⟨1/10000000000, 0, 0⟩ none).1
      (by norm_num [Vector3.lengthSquared, MATH_EPSILON])).1
  · exact (((applyForce_epsilon_gate ⟨false, ⟨0, 0, 0⟩, ⟨0, 0, 0⟩, []⟩
      ⟨1, 0, 0⟩ none).2
      (by norm_num [Vector3.lengthSquared, MATH_EPSILON])).1).1

/-- `PhysicsRigidBody::ShapeType` together with the internal extension values
`SHAPE_MESH`, `SHAPE_HEIGHTFIELD`, `SHAPE_CAPSULE` defined at the top of the
file. -/
inductive ShapeType where
  | shapeNone
  | shapeBox
  | shapeSphere
  | shapeMesh
  | shapeHeightfield
  | shapeCapsule
  deriving DecidableEq, Repr

/-- `Mesh::PrimitiveType` values distinguished by the mesh check. -/
inductive PrimitiveType where
  | triangles
  | lines
  | lineStrip
  | points
  | triangleStrip
  deriving DecidableEq, Repr

/-- What `create` reads from the node: its mesh primitive topology. -/
structure NodeInfo where
  primitiveType : PrimitiveType
  deriving DecidableEq, Repr

/-- Modelled from the spec: a value stored in the external `Properties`
collaborator, one of the value kinds `create` extracts. -/
inductive PropValue where
  | str (v : String)
  | flt (v : ℚ)
  | bool (v : Bool)
  | vec (v : Vector3)
  deriving DecidableEq, Repr

/-- Modelled from the spec: the external `Properties` block — its namespace
string and its key/value pairs in file order. -/
structure Properties where
  nspace : String
  entries : List (String × PropValue)
  deriving DecidableEq, Repr

/-- `Properties::getString()` on the current value (empty on kind mismatch). -/
def PropValue.getString : PropValue → String
  | PropValue.str v => v
  | _ => ""

/-- `Properties::getFloat()` on the current value (0 on kind mismatch). -/
def PropValue.getFloat : PropValue → ℚ
  | PropValue.flt v => v
  | _ => 0

/-- `Properties::getBool()` on the current value (false on kind mismatch). -/
def PropValue.getBool : PropValue → Bool
  | PropValue.bool v => v
  | _ => false

/-- `Properties::getVector3()` on the current value (zero on kind mismatch). -/
def PropValue.getVector3 : PropValue → Vector3
  | PropValue.vec v => v
  | _ => ⟨0, 0, 0⟩

/-- The local variables of `create(Node*, Properties*)` after the property
loop, with the defaults set at lines 314-326. -/
structure RBParams where
  type : ShapeType := ShapeType.shapeNone
  mass : ℚ := 0
  friction : ℚ := 1/2
  restitution : ℚ := 0
  linearDamping : ℚ := 0
  angularDamping : ℚ := 0
  kinematic : Bool := false
  gravity : Option Vector3 := none
  anisotropicFriction : Option Vector3 := none
  imagePath : Option String := none
  radius : ℚ := -1
  height : ℚ := -1
  deriving DecidableEq, Repr

/-- One iteration of the property loop (lines 331-398).  `none` is the early
`return NULL` on an unsupported `type` string; unknown keys are skipped. -/
def applyProp (p : RBParams) (name : String) (v : PropValue) : Option RBParams :=
  if name = "type" then
    if v.getString = "BOX" then some { p with type := ShapeType.shapeBox }
    else if v.getString = "SPHERE" then some { p with type := ShapeType.shapeSphere }
    else if v.getString = "MESH" then some { p with type := ShapeType.shapeMesh }
    else if v.getString = "HEIGHTFIELD" then
      some { p with type := ShapeType.shapeHeightfield }
    else if v.getString = "CAPSULE" then some { p with type := ShapeType.shapeCapsule }
    else none
  else if name = "mass" then some { p with mass := v.getFloat }
  else if name = "friction" then some { p with friction := v.getFloat }
  else if name = "restitution" then some { p with restitution := v.getFloat }
  else if name = "linearDamping" then some { p with linearDamping := v.getFloat }
  else if name = "angularDamping" then some { p with angularDamping := v.getFloat }
  else if name = "kinematic" then some { p with kinematic := v.getBool }
  else if name = "gravity" then some { p with gravity := some v.getVector3 }
  else if name = "anisotropicFriction" then
    some { p with anisotropicFriction := some v.getVector3 }
  else if name = "image" then some { p with imagePath := some v.getString }
  else if name = "radius" then some { p with radius := v.getFloat }
  else if name = "height" then some { p with height := v.getFloat }
  else some p

/-- The whole property loop. -/
def parseProps : List (String × PropValue) → RBParams → Option RBParams
  | [], p => some p
  | (n, v) :: rest, p =>
    match applyProp p n v with
    | none => none
    | some p2 => parseProps rest p2

/-- Which `PhysicsRigidBody` constructor the switch at lines 423-465 invokes. -/
inductive BodyCtor where
  | byType (t : ShapeType)
  | byImage (img : ImageModel)
  | byCapsule (radius height : ℚ)
  deriving DecidableEq, Repr

/-- The constructed body as `create` leaves it: the constructor call and the
parameters wired into it, plus the post-construction setters applied. -/
structure RigidBodyDesc where
  ctor : BodyCtor
  mass : ℚ
  friction : ℚ
  restitution : ℚ
  linearDamping : ℚ
  angularDamping : ℚ
  kinematic : Bool := false
  gravity : Option Vector3 := none
  anisotropicFriction : Option Vector3 := none
  deriving DecidableEq, Repr

/-- Package the parsed parameters into a constructor call. -/
def mkDesc (c : BodyCtor) (p : RBParams) : RigidBodyDesc :=
  { ctor := c, mass := p.mass, friction := p.friction, restitution := p.restitution,
    linearDamping := p.linearDamping, angularDamping := p.angularDamping }

/-- The undefined behaviour `create` can run into: calling a setter through
the NULL body pointer. -/
inductive CreateFault where
  | nullDereference
  deriving DecidableEq, Repr

/-- The observable outcome of `create`: the warnings logged and either the
returned body pointer (`none` is `NULL`) or the fault reached. -/
structure CreateResult where
  warnings : List String
  outcome : Except CreateFault (Option RigidBodyDesc)
  deriving Repr

/-- The `switch (type)` at lines 423-465.  `Sum.inl` is an early
`return NULL` (the epilogue is skipped); `Sum.inr` falls through to the
setter epilogue, possibly with a NULL body. -/
def createSwitch (loadImage : String → Option ImageModel) (p : RBParams) :
    (List String × Option RigidBodyDesc) ⊕ (List String × Option RigidBodyDesc) :=
  match p.type with
  | ShapeType.shapeHeightfield =>
    match p.imagePath with
    | none => Sum.inr (["Heightfield rigid body requires an image path."], none)
    | some path =>
      match loadImage path with
      | none => Sum.inl ([], none)
      | some img =>
        match img.format with
        | ImageFormat.rgb => Sum.inr ([], some (mkDesc (BodyCtor.byImage img) p))
        | ImageFormat.rgba => Sum.inr ([], some (mkDesc (BodyCtor.byImage img) p))
        | ImageFormat.other =>
          Sum.inl (["Heightmap: pixel format is not supported"], none)
  | ShapeType.shapeCapsule =>
    if p.radius = -1 ∨ p.height = -1 then
      Sum.inr (["Both radius and height must be specified for a capsule rigid body."],
        none)
    else
      Sum.inr ([], some (mkDesc (BodyCtor.byCapsule p.radius p.height) p))
  | t => Sum.inr ([], some (mkDesc (BodyCtor.byType t) p))

/-- One conditional setter of the epilogue at lines 468-473: when the guard
holds the setter is called through the body pointer, which faults if the
pointer is NULL. -/
def applySetter (guard : Bool) (set : RigidBodyDesc → RigidBodyDesc)
    (body : Option RigidBodyDesc) : Except CreateFault (Option RigidBodyDesc) :=
  if guard then
    match body with
    | none => Except.error CreateFault.nullDereference
    | some b => Except.ok (some (set b))
  else
    Except.ok body

/-- The setter epilogue: `setKinematic`, `setGravity`,
`setAnisotropicFriction`, each guarded, each dereferencing the body. -/
def finishCreate (p : RBParams) (ws : List String) (body : Option RigidBodyDesc) :
    CreateResult :=
  ⟨ws, do
    let b1 ← applySetter p.kinematic (fun b => { b with kinematic := true }) body
    let b2 ← applySetter p.gravity.isSome (fun b => { b with gravity := p.gravity }) b1
    applySetter p.anisotropicFriction.isSome
      (fun b => { b with anisotropicFriction := p.anisotropicFriction }) b2⟩

/-- `PhysicsRigidBody::create(Node*, Properties*)` (lines 304-480), with the
image decoder passed in as the map `loadImage` from paths to decoded images. -/
def create (node : NodeInfo) (loadImage : String → Option ImageModel)
    (props : Properties) : CreateResult :=
  if props.nspace ≠ "rigidbody" then
    ⟨["rigid body properties must have namespace equal to rigidbody"],
      Except.ok none⟩
  else
    match parseProps props.entries {} with
    | none => ⟨["unsupported value for rigid body type"], Except.ok none⟩
    | some p =>
      if p.type = ShapeType.shapeMesh ∧ node.primitiveType ≠ PrimitiveType.triangles then
        ⟨["Mesh rigid bodies are currently only supported on meshes with primitive type equal to TRIANGLES."],
          Except.ok none⟩
      else
        match createSwitch loadImage p with
        | Sum.inl (ws, r) => ⟨ws, Except.ok r⟩
        | Sum.inr (ws, body) => finishCreate p ws body

/-- Claim C4 (code bug): with `type = HEIGHTFIELD` and no `image` key,
`create` warns and returns NULL when only benign keys (mass, friction) are
present — but as soon as `kinematic = true` is also present the fall-through
calls `setKinematic` on the NULL body pointer, a null dereference, so the
claimed regardless-of-other-keys guarantee fails. -/
theorem create_heightfield_missing_image :
    (create ⟨PrimitiveType.triangles⟩ (fun _ => none)
        ⟨"rigidbody", [("type", PropValue.str "HEIGHTFIELD"), ("mass", PropValue.flt 5),
          ("friction", PropValue.flt 1)]⟩ =
      ⟨["Heightfield rigid body requires an image path."], Except.ok none⟩) ∧
    (create ⟨PrimitiveType.triangles⟩ (fun _ => none)
        ⟨"rigidbody", [("type", PropValue.str "HEIGHTFIELD"),
          ("kinematic", PropValue.bool true)]⟩ =
      ⟨["Heightfield rigid body requires an image path."],
        Except.error CreateFault.nullDereference⟩) := by
  constructor
  · rfl
  · rfl

end GamePlay
